import Mathlib

/- Shallow embedding of the interactive receipt-classification flow of the
   expense-backend repository: the conversation handlers of
   src/telegram_bot.py and the telegram-receipt write path of
   src/firebase_client.py.

   Python dicts with a fixed key set are modelled as structures whose fields
   are Option values: a field equal to none stands for the key being absent
   or bound to None (the two are conflated except for the last_project key
   of user_states, where the distinction is observable and is kept via a
   nested Option).  The telegram_receipts collection is modelled as the list
   of documents written, in insertion order; a document is the key/value
   list that save_telegram_receipt builds after its None-filtering step.
   External effects (the Gemini extraction call, acceptance of a Firestore
   add) enter as explicit parameters; chat replies are abstracted to an
   enumeration of the distinct messages the handlers can send. -/

/-- Values that can appear in a stored Firestore document. -/
inductive PyVal where
  | vStr : String → PyVal
  | vNum : ℚ → PyVal
  | vBool : Bool → PyVal
  | vStrList : List String → PyVal
  | vServerTimestamp : PyVal
  deriving DecidableEq

/-- The expense_data dict: extractor output plus the classification keys that
handle_notes merges in before saving (those start out absent). -/
structure ExpenseData where
  merchant_name : Option String := none
  total_amount : Option ℚ := none
  currency : Option String := none
  date : Option String := none
  items : List String := []
  tax_amount : Option ℚ := none
  payment_method : Option String := none
  file_path : Option String := none
  category : Option String := none
  is_reimbursable : Option Bool := none
  project_name : Option String := none
  notes : Option String := none
  deriving DecidableEq

/-- One entry of a pending_receipt_queues queue. -/
structure Receipt where
  file_path : String
  file_id : String
  extracted : Bool := false
  error : Bool := false
  expense_data : Option ExpenseData := none
  category : Option String := none
  is_reimbursable : Option Bool := none
  project : Option String := none
  notes : Option String := none
  deriving DecidableEq

/-- The four conversation states WAITING_FOR_CATEGORY .. WAITING_FOR_NOTES. -/
inductive ConvStage where
  | category
  | reimbursement
  | project
  | notes
  deriving DecidableEq

/-- The user_states entry for one user.  last_project is doubly optional:
the outer layer is key presence (tested with the in operator by the code),
the inner layer is the stored value, which the cleanup assignments can set
to None. -/
structure UserState where
  state : Option ConvStage := none
  processing : Bool := false
  uploading : Bool := false
  processed_count : Option Nat := none
  last_project : Option (Option String) := none
  deriving DecidableEq

/-- Return value of a handler: a WAITING_FOR_* constant or ConversationHandler.END. -/
inductive ConvResult where
  | ended
  | waiting : ConvStage → ConvResult
  deriving DecidableEq

/-- The distinct outbound messages the modelled handlers can produce. -/
inductive Reply where
  | finishCurrentFirst
  | noPending
  | repromptCategory
  | repromptReimbursement
  | personalSavedAskNotes
  | businessAskReimbursement
  | askProject : Option (Option String) → Reply
  | businessSavedAskNotes
  | failedToSave
  | receiptComplete
  | allDone : Nat → Reply
  | askCategoryPrompt
  | errorReply
  | cancelledCleared : Nat → Reply
  | cancelledNothing
  | receivedBatch : Nat → Reply
  | processingOne
  | skipReceipt : Nat → Reply
  | couldNotProcessAny
  deriving DecidableEq

/-- The per-user global state the bot keeps, plus the store collection.
queue = pending_receipt_queues at this user id (none when the key is
absent), ustate = user_states at this user id, store = the documents in
the telegram_receipts collection, in insertion order. -/
structure BotState where
  queue : Option (List Receipt) := none
  ustate : Option UserState := none
  store : List (List (String × PyVal)) := []
  deriving DecidableEq

/-- What one handler invocation produces: the replies sent, the updated
global state, and the conversation-state return value. -/
structure HandlerOut where
  replies : List Reply
  state : BotState
  result : ConvResult
  deriving DecidableEq

/-- Python str.upper, modelled structurally over the character list (the
inputs involved are plain ASCII). -/
def pyUpper (s : String) : String := ⟨s.data.map Char.toUpper⟩

/-- Python str.lower, modelled structurally over the character list. -/
def pyLower (s : String) : String := ⟨s.data.map Char.toLower⟩

/-- Python str.strip with no argument: remove leading and trailing
whitespace. -/
def pyStrip (s : String) : String :=
  ⟨((s.data.dropWhile Char.isWhitespace).reverse.dropWhile Char.isWhitespace).reverse⟩

/-- The receipt_data dict literal of FirebaseClient.save_telegram_receipt,
before the None-filtering comprehension: each entry is a key paired with an
optional value. -/
def buildReceiptDocRaw (e : ExpenseData) (uid : Option String) :
    List (String × Option PyVal) :=
  let category := e.category.getD "Personal"
  let is_reimb := e.is_reimbursable.getD false
  let full_category :=
    if category = "Personal" then "Personal"
    else if is_reimb then "Business - Reimbursable"
    else "Business - Company expense"
  [("merchant", some (.vStr (e.merchant_name.getD "Unknown"))),
   ("amount", some (.vNum (e.total_amount.getD 0))),
   ("currency", some (.vStr (e.currency.getD "INR"))),
   ("date", e.date.map .vStr),
   ("source", some (.vStr "telegram")),
   ("category", some (.vStr category)),
   ("full_category", some (.vStr full_category)),
   ("is_reimbursable", if category = "Business" then some (.vBool is_reimb) else none),
   ("project_name", if category = "Business" then e.project_name.map .vStr else none),
   ("items", some (.vStrList e.items)),
   ("tax_amount", e.tax_amount.map .vNum),
   ("payment_method", e.payment_method.map .vStr),
   ("telegram_user_id", uid.map .vStr),
   ("file_path", e.file_path.map .vStr),
   ("confidence", some (.vNum (9 / 10))),
   ("notes", e.notes.map .vStr),
   ("created_at", some .vServerTimestamp)]

/-- The None-filtering comprehension: drop every key whose value is None. -/
def dropNoneValues (l : List (String × Option PyVal)) : List (String × PyVal) :=
  l.filterMap (fun kv => kv.2.map (fun v => (kv.1, v)))

/-- The document that save_telegram_receipt actually writes. -/
def saveDoc (e : ExpenseData) (uid : Option String) : List (String × PyVal) :=
  dropNoneValues (buildReceiptDocRaw e uid)

/-- FirebaseClient.save_telegram_receipt: builds the document and hands it to
the store.  storeAccepts models whether the Firestore add succeeds; a
rejected write makes the function return success equal to False, which the
model renders as none. -/
def save_telegram_receipt (e : ExpenseData) (uid : Option String)
    (storeAccepts : Bool) : Option (List (String × PyVal)) :=
  if storeAccepts then some (saveDoc e uid) else none

/-- Whether one stored document matches the duplicate-detection query of
FirebaseClient.check_duplicate_receipt: equality on all four fields, with
the queried merchant upper-cased. -/
def docMatchesTuple (doc : List (String × PyVal)) (merchant : String)
    (amount : ℚ) (date : String) (uid : String) : Bool :=
  (doc.lookup "merchant" == some (.vStr (pyUpper merchant))) &&
  (doc.lookup "amount" == some (.vNum amount)) &&
  (doc.lookup "date" == some (.vStr date)) &&
  (doc.lookup "telegram_user_id" == some (.vStr uid))

/-- FirebaseClient.check_duplicate_receipt: limit-1 query modelled as an
existence test over the collection. -/
def check_duplicate_receipt (store : List (List (String × PyVal)))
    (merchant : String) (amount : ℚ) (date : String) (uid : String) : Bool :=
  store.any (fun d => docMatchesTuple d merchant amount date uid)

/-- A sample extracted expense used by concrete scenarios below. -/
def cafeExpense : ExpenseData :=
  { merchant_name := some "Cafe X", total_amount := some 250,
    currency := some "INR", date := some "2024-03-01" }

/-- The notes value computed at the top of handle_notes: only the exact word
skip (any casing, after stripping) yields None; anything else, including
done, is kept as the notes text. -/
def notesOf (text : String) : Option String :=
  if pyLower (pyStrip text) == "skip" then none else some (pyStrip text)

/-- The expense_data dict after handle_notes copies the collected
classification keys into it. -/
def mergeForSave (e : ExpenseData) (r : Receipt) (notes : Option String) :
    ExpenseData :=
  { e with category := r.category, is_reimbursable := r.is_reimbursable,
           project_name := r.project, notes := notes }

/-- handle_photo, lines 115 to 170: if the user is flagged as processing the
photo is turned away, otherwise the download is recorded at the tail of the
queue and the uploading flag is set.  The 2 second batch timer is an
asynchronous scheduling detail and is not part of the state model. -/
def handle_photo (s : BotState) (fp fid : String) : HandlerOut :=
  if (s.ustate.map UserState.processing).getD false then
    { replies := [.finishCurrentFirst], state := s,
      result := match s.ustate.bind UserState.state with
                | some st => .waiting st
                | none => .ended }
  else
    let q := s.queue.getD []
    let q' := q ++ [{ file_path := fp, file_id := fid }]
    let u := s.ustate.getD {}
    { replies := [], result := .ended,
      state := { s with queue := some q', ustate := some { u with uploading := true } } }

/-- ask_category_for_current_receipt, lines 225 to 254: presents the head of
the queue and moves the stored dialogue state to WAITING_FOR_CATEGORY.  A
missing expense_data or a missing user_states entry raises inside the try
block, which swallows the error and returns END without replying. -/
def ask_category_for_current_receipt (s : BotState) : HandlerOut :=
  match s.queue with
  | none => { replies := [], state := s, result := .ended }
  | some [] => { replies := [], state := s, result := .ended }
  | some (r :: _) =>
    match r.expense_data, s.ustate with
    | some _, some u =>
      { replies := [.askCategoryPrompt],
        state := { s with ustate := some { u with state := some .category } },
        result := .waiting .category }
    | _, _ => { replies := [], state := s, result := .ended }

/-- Output of one extractor call: the returned dict either carries an error
key or the extracted fields (with source and file_path added by the
extractor before returning). -/
structure ExtractOut where
  error : Option String := none
  data : ExpenseData := {}
  deriving DecidableEq

/-- One iteration of the extraction loop of process_after_delay: an already
extracted entry is left alone; an error marks the entry, success stores the
expense data and the extracted flag. -/
def extractStep (extract : String → ExtractOut) (r : Receipt) : Receipt :=
  if r.extracted then r
  else
    let out := extract r.file_path
    if out.error.isSome then { r with error := true }
    else { r with expense_data := some out.data, extracted := true }

/-- process_after_delay, lines 173 to 222: after the batch pause, flags the
user as processing, extracts every queued photo, drops the failures, and
either gives up (deleting both per-user entries) or presents the head. -/
def process_after_delay (extract : String → ExtractOut) (s : BotState) :
    List Reply × BotState :=
  match s.queue with
  | none => ([], s)
  | some [] => ([], s)
  | some q =>
    match s.ustate with
    | none => ([], s)
    | some u =>
      let u1 := { u with uploading := false, processing := true }
      let batchReply := if q.length > 1 then Reply.receivedBatch q.length
                        else Reply.processingOne
      let processed := q.map (extractStep extract)
      let skips := processed.enum.filterMap
        (fun ir => if ir.2.error then some (Reply.skipReceipt (ir.1 + 1)) else none)
      let q' := processed.filter (fun r => !r.error)
      match q' with
      | [] =>
        (batchReply :: skips ++ [.couldNotProcessAny],
         { s with queue := none, ustate := none })
      | _ :: _ =>
        let s1 := { s with queue := some q', ustate := some u1 }
        let a := ask_category_for_current_receipt s1
        (batchReply :: skips ++ a.replies, a.state)

/-- handle_category, lines 257 to 315: parses P or B (case-insensitive after
stripping), stores the category on the head receipt, and advances either to
notes (Personal) or to the reimbursement question (Business). -/
def handle_category (s : BotState) (text : String) : HandlerOut :=
  let t := pyUpper (pyStrip text)
  match s.queue with
  | none => { replies := [.noPending], state := s, result := .ended }
  | some [] => { replies := [.noPending], state := s, result := .ended }
  | some (r :: rest) =>
    let isPersonal := t == "P" || t == "PERSONAL"
    let isBusiness := t == "B" || t == "BUSINESS"
    if !isPersonal && !isBusiness then
      { replies := [.repromptCategory], state := s, result := .waiting .category }
    else
      let r' := { r with category := some (if isPersonal then "Personal" else "Business") }
      let s' := { s with queue := some (r' :: rest) }
      if isPersonal then
        match r.expense_data with
        | none => { replies := [.errorReply], state := s', result := .ended }
        | some _ =>
          match s.ustate with
          | none =>
            { replies := [.personalSavedAskNotes, .errorReply], state := s', result := .ended }
          | some u =>
            { replies := [.personalSavedAskNotes],
              state := { s' with ustate := some { u with state := some .notes } },
              result := .waiting .notes }
      else
        match s.ustate with
        | none =>
          { replies := [.businessAskReimbursement, .errorReply], state := s', result := .ended }
        | some u =>
          { replies := [.businessAskReimbursement],
            state := { s' with ustate := some { u with state := some .reimbursement } },
            result := .waiting .reimbursement }

/-- handle_reimbursement, lines 318 to 361: parses Y or N, stores the
boolean on the head receipt, and always continues to the project question,
suggesting the remembered project when the last_project key is present. -/
def handle_reimbursement (s : BotState) (text : String) : HandlerOut :=
  let t := pyUpper (pyStrip text)
  match s.queue with
  | none => { replies := [.noPending], state := s, result := .ended }
  | some [] => { replies := [.noPending], state := s, result := .ended }
  | some (r :: rest) =>
    let isYes := t == "Y" || t == "YES"
    let isNo := t == "N" || t == "NO"
    if !isYes && !isNo then
      { replies := [.repromptReimbursement], state := s, result := .waiting .reimbursement }
    else
      let r' := { r with is_reimbursable := some isYes }
      let s' := { s with queue := some (r' :: rest) }
      let suggestion := s.ustate.bind UserState.last_project
      match s.ustate with
      | none =>
        { replies := [.askProject suggestion], state := s', result := .ended }
      | some u =>
        { replies := [.askProject suggestion],
          state := { s' with ustate := some { u with state := some .project } },
          result := .waiting .project }

/-- handle_project, lines 364 to 409: the literal 1 recalls the remembered
project when the last_project key is present (without touching the memory);
skip clears the project; any other text becomes the project and is
remembered.  The remembering assignment indexes user_states directly, so a
missing user entry aborts through the except clause before the receipt is
touched. -/
def handle_project (s : BotState) (text : String) : HandlerOut :=
  let t := pyStrip text
  match s.queue with
  | none => { replies := [.noPending], state := s, result := .ended }
  | some [] => { replies := [.noPending], state := s, result := .ended }
  | some (r :: rest) =>
    match r.expense_data with
    | none => { replies := [], state := s, result := .ended }
    | some _ =>
      let lastKey := s.ustate.bind UserState.last_project
      if t == "1" && lastKey.isSome then
        let r' := { r with project := lastKey.getD none }
        let s' := { s with queue := some (r' :: rest) }
        match s.ustate with
        | none => { replies := [.businessSavedAskNotes], state := s', result := .ended }
        | some u =>
          { replies := [.businessSavedAskNotes],
            state := { s' with ustate := some { u with state := some .notes } },
            result := .waiting .notes }
      else if pyLower t == "skip" then
        let r' := { r with project := none }
        let s' := { s with queue := some (r' :: rest) }
        match s.ustate with
        | none => { replies := [.businessSavedAskNotes], state := s', result := .ended }
        | some u =>
          { replies := [.businessSavedAskNotes],
            state := { s' with ustate := some { u with state := some .notes } },
            result := .waiting .notes }
      else
        match s.ustate with
        | none => { replies := [], state := s, result := .ended }
        | some u =>
          let r' := { r with project := some t }
          let u' := { u with last_project := some (some t), state := some .notes }
          { replies := [.businessSavedAskNotes],
            state := { s with queue := some (r' :: rest), ustate := some u' },
            result := .waiting .notes }

/-- handle_notes, lines 412 to 514: records the notes on the head receipt,
merges the classification keys into expense_data, saves, and on success pops
the head, either presenting the next receipt or deleting the queue and
resetting the user entry down to its last_project key.  A rejected write
replies with the failure and ends without popping. -/
def handle_notes (s : BotState) (uid : String) (text : String)
    (storeAccepts : Bool) : HandlerOut :=
  let t := pyStrip text
  match s.queue with
  | none => { replies := [.noPending], state := s, result := .ended }
  | some [] => { replies := [.noPending], state := s, result := .ended }
  | some (r :: rest) =>
    match r.expense_data with
    | none => { replies := [.errorReply], state := s, result := .ended }
    | some e =>
      let notes := if pyLower t == "skip" then none else some t
      let merged := mergeForSave e r notes
      let r' := { r with notes := notes, expense_data := some merged }
      match save_telegram_receipt merged (some uid) storeAccepts with
      | none =>
        { replies := [.failedToSave],
          state := { s with queue := some (r' :: rest) }, result := .ended }
      | some doc =>
        let store' := s.store ++ [doc]
        match s.ustate with
        | none =>
          { replies := [.errorReply],
            state := { s with queue := some (r' :: rest), store := store' },
            result := .ended }
        | some u =>
          let u1 := { u with processed_count := some (u.processed_count.getD 0 + 1) }
          match rest with
          | [] =>
            let u2 : UserState := { last_project := some (u1.last_project.getD none) }
            { replies := [.allDone (u1.processed_count.getD 1)],
              state := { s with queue := none, ustate := some u2, store := store' },
              result := .ended }
          | _ :: _ =>
            let s1 := { s with queue := some rest, ustate := some u1, store := store' }
            let a := ask_category_for_current_receipt s1
            { replies := .receiptComplete :: a.replies,
              state := a.state,
              result := .waiting ((a.state.ustate.bind UserState.state).getD .category) }

/-- cancel, lines 517 to 533: unconditionally deletes the queue and resets
the user entry to a dict holding only the last_project key. -/
def cancel (s : BotState) : HandlerOut :=
  let rep := match s.queue with
             | some q => Reply.cancelledCleared q.length
             | none => Reply.cancelledNothing
  let u' := s.ustate.map (fun u => ({ last_project := some (u.last_project.getD none) } : UserState))
  { replies := [rep],
    state := { s with queue := none, ustate := u' },
    result := .ended }

/-- An extractor model that succeeds with the sample cafe expense, adding
the file path the way the real extractor does. -/
def okExtract : String → ExtractOut := fun fp =>
  { data := { cafeExpense with file_path := some fp } }

/-- Fresh per-user state: no queue entry, no user_states entry, empty store. -/
def s0 : BotState := {}

/-- After the first photo arrives. -/
def s1 : BotState := (handle_photo s0 "temp/a.jpg" "a").state

/-- After the batch pause processes the first photo. -/
def s2 : BotState := (process_after_delay okExtract s1).2

/-- After the user answers P. -/
def s3 : BotState := (handle_category s2 "P").state

/-- After the user answers skip for notes: first record saved, queue gone. -/
def s4 : BotState := (handle_notes s3 "42" "skip" true).state

/-- A second photo of the same receipt, after the first was saved. -/
def s5 : BotState := (handle_photo s4 "temp/b.jpg" "b").state

/-- The second photo extracted and presented. -/
def s6 : BotState := (process_after_delay okExtract s5).2

/-- Second pass: the user answers P again. -/
def s7 : BotState := (handle_category s6 "P").state

/-- Second pass: notes skipped again, finalize runs a second time. -/
def s8 : BotState := (handle_notes s7 "42" "skip" true).state

/-- Business branch: the user answers B instead of P. -/
def b3 : BotState := (handle_category s2 "B").state

/-- The handler invocation for the answer N to the reimbursement question. -/
def b4 : HandlerOut := handle_reimbursement b3 "N"

/-- Business branch continued: Y to reimbursement, then the project Acme. -/
def b5 : BotState := (handle_project (handle_reimbursement b3 "Y").state "Acme").state

/-- Iterated finalize: n consecutive notes messages, each accepted by the
store. -/
def iterateNotes (uid text : String) : Nat → BotState → BotState
  | 0, s => s
  | n + 1, s => iterateNotes uid text n (handle_notes s uid text true).state

/-- The documents a full drain of a queue writes, in queue order. -/
def recordsOf (uid text : String) (q : List Receipt) :
    List (List (String × PyVal)) :=
  q.map (fun r => saveDoc (mergeForSave (r.expense_data.getD {}) r (notesOf text)) (some uid))

/-- A queued receipt that has been extracted, used by witnesses. -/
def rP : Receipt :=
  { file_path := "temp/a.jpg", file_id := "a", extracted := true,
    expense_data := some cafeExpense }

/-- A user mid-dialogue at the category stage. -/
def uCat : UserState := { state := some .category, processing := true }

/-- A user mid-dialogue at the reimbursement stage. -/
def uReimb : UserState := { state := some .reimbursement, processing := true }

/-- A user mid-dialogue at the project stage with a remembered project. -/
def uProj : UserState :=
  { state := some .project, processing := true, last_project := some (some "Acme") }

/-- A user mid-dialogue at the notes stage. -/
def uNotes : UserState := { state := some .notes, processing := true }

/-- Three distinct queued receipts used by the C7 witness. -/
def q3 : List Receipt :=
  [{ rP with file_id := "1" }, { rP with file_id := "2" }, { rP with file_id := "3" }]

example : saveDoc { cafeExpense with category := some "Personal" } (some "42") =
    [("merchant", .vStr "Cafe X"), ("amount", .vNum 250), ("currency", .vStr "INR"),
     ("date", .vStr "2024-03-01"), ("source", .vStr "telegram"),
     ("category", .vStr "Personal"), ("full_category", .vStr "Personal"),
     ("items", .vStrList []), ("telegram_user_id", .vStr "42"),
     ("confidence", .vNum (9 / 10)), ("created_at", .vServerTimestamp)] := rfl

example : s1.queue = some [{ file_path := "temp/a.jpg", file_id := "a" }] := by decide

example : (s2.ustate.map UserState.processing) = some true := by decide

example : (s2.ustate.bind UserState.state) = some .category := by decide

example : s3.store.length = 0 ∧ s4.store.length = 1 ∧ s4.queue = none := by decide

example : s8.store.length = 2 := by decide

example : (b3.ustate.bind UserState.state) = some .reimbursement := by decide

example : (b5.ustate.bind UserState.last_project) = some (some "Acme") := by decide

/-- Keys of the raw receipt_data dict, in order, independent of the data. -/
theorem buildReceiptDocRaw_keys (e : ExpenseData) (uid : Option String) :
    (buildReceiptDocRaw e uid).map Prod.fst =
    ["merchant", "amount", "currency", "date", "source", "category",
     "full_category", "is_reimbursable", "project_name", "items", "tax_amount",
     "payment_method", "telegram_user_id", "file_path", "confidence", "notes",
     "created_at"] := rfl

/-- Looking up a key that does not occur at all yields nothing after the
None-filtering. -/
theorem lookup_dropNoneValues_not_mem {l : List (String × Option PyVal)}
    {k : String} (h : k ∉ l.map Prod.fst) : (dropNoneValues l).lookup k = none := by
  induction l with
  | nil => rfl
  | cons a tl ih =>
    simp only [List.map_cons, List.mem_cons, not_or] at h
    obtain ⟨hka, htl⟩ := h
    obtain ⟨ak, av⟩ := a
    cases av with
    | none => exact ih htl
    | some v =>
      simp only [dropNoneValues, List.filterMap_cons, Option.map_some] at *
      simp only [List.lookup]
      have : (k == ak) = false := by
        simp only [beq_eq_false_iff_ne, ne_eq]
        exact hka
      rw [this]
      exact ih htl

/-- On a dict whose keys are pairwise distinct, dropping the None values and
then looking a key up agrees with looking up first and flattening. -/
theorem lookup_dropNoneValues {l : List (String × Option PyVal)} {k : String}
    (h : (l.map Prod.fst).Nodup) :
    (dropNoneValues l).lookup k = (l.lookup k).bind id := by
  induction l with
  | nil => rfl
  | cons a tl ih =>
    obtain ⟨ak, av⟩ := a
    simp only [List.map_cons, List.nodup_cons] at h
    obtain ⟨hnm, hnd⟩ := h
    by_cases hk : k = ak
    · subst hk
      cases av with
      | none =>
        simp only [dropNoneValues, List.filterMap_cons, List.lookup, beq_self_eq_true,
          Option.bind]
        exact lookup_dropNoneValues_not_mem hnm
      | some v =>
        simp [dropNoneValues, List.filterMap_cons, List.lookup]
    · have hbeq : (k == ak) = false := by
        simp only [beq_eq_false_iff_ne, ne_eq]
        exact hk
      cases av with
      | none =>
        simp only [dropNoneValues, List.filterMap_cons, List.lookup, hbeq]
        exact ih hnd
      | some v =>
        simp only [dropNoneValues, List.filterMap_cons, Option.map_some, List.lookup, hbeq]
        exact ih hnd

/-- Key lookup in the stored document, reduced to the raw dict. -/
theorem saveDoc_lookup (e : ExpenseData) (uid : Option String) (k : String) :
    (saveDoc e uid).lookup k = ((buildReceiptDocRaw e uid).lookup k).bind id := by
  apply lookup_dropNoneValues
  rw [buildReceiptDocRaw_keys]
  decide

/-- Raw dict value at the is_reimbursable key. -/
theorem raw_lookup_is_reimbursable (e : ExpenseData) (uid : Option String) :
    (buildReceiptDocRaw e uid).lookup "is_reimbursable" =
    some (if e.category.getD "Personal" = "Business"
          then some (.vBool (e.is_reimbursable.getD false)) else none) := rfl

/-- Raw dict value at the project_name key. -/
theorem raw_lookup_project_name (e : ExpenseData) (uid : Option String) :
    (buildReceiptDocRaw e uid).lookup "project_name" =
    some (if e.category.getD "Personal" = "Business"
          then e.project_name.map .vStr else none) := rfl

/-- Raw dict value at the notes key. -/
theorem raw_lookup_notes (e : ExpenseData) (uid : Option String) :
    (buildReceiptDocRaw e uid).lookup "notes" = some (e.notes.map .vStr) := rfl

/-- Raw dict value at the date key. -/
theorem raw_lookup_date (e : ExpenseData) (uid : Option String) :
    (buildReceiptDocRaw e uid).lookup "date" = some (e.date.map .vStr) := rfl

/-- Raw dict value at the tax_amount key. -/
theorem raw_lookup_tax_amount (e : ExpenseData) (uid : Option String) :
    (buildReceiptDocRaw e uid).lookup "tax_amount" = some (e.tax_amount.map .vNum) := rfl

/-- Raw dict value at the payment_method key. -/
theorem raw_lookup_payment_method (e : ExpenseData) (uid : Option String) :
    (buildReceiptDocRaw e uid).lookup "payment_method" =
    some (e.payment_method.map .vStr) := rfl

/-- Raw dict value at the telegram_user_id key. -/
theorem raw_lookup_telegram_user_id (e : ExpenseData) (uid : Option String) :
    (buildReceiptDocRaw e uid).lookup "telegram_user_id" = some (uid.map .vStr) := rfl

/-- Raw dict value at the file_path key. -/
theorem raw_lookup_file_path (e : ExpenseData) (uid : Option String) :
    (buildReceiptDocRaw e uid).lookup "file_path" = some (e.file_path.map .vStr) := rfl

/-- Stored document value at the is_reimbursable key. -/
theorem saveDoc_lookup_is_reimbursable (e : ExpenseData) (uid : Option String) :
    (saveDoc e uid).lookup "is_reimbursable" =
    if e.category.getD "Personal" = "Business"
    then some (.vBool (e.is_reimbursable.getD false)) else none := by
  rw [saveDoc_lookup, raw_lookup_is_reimbursable]
  by_cases h : e.category.getD "Personal" = "Business" <;> simp [h]

/-- Stored document value at the project_name key. -/
theorem saveDoc_lookup_project_name (e : ExpenseData) (uid : Option String) :
    (saveDoc e uid).lookup "project_name" =
    if e.category.getD "Personal" = "Business"
    then e.project_name.map .vStr else none := by
  rw [saveDoc_lookup, raw_lookup_project_name]
  by_cases h : e.category.getD "Personal" = "Business" <;>
    cases hp : e.project_name <;> simp [h, hp]

/-- Stored document value at the notes key. -/
theorem saveDoc_lookup_notes (e : ExpenseData) (uid : Option String) :
    (saveDoc e uid).lookup "notes" = e.notes.map .vStr := by
  rw [saveDoc_lookup, raw_lookup_notes]
  cases e.notes <;> simp

/-- On a well-formed head and an accepting store, handle_notes appends
exactly the merged document of the head receipt to the collection. -/
theorem handle_notes_spec_store (r : Receipt) (rest : List Receipt)
    (u : UserState) (st : List (List (String × PyVal))) (e : ExpenseData)
    (uid text : String) (he : r.expense_data = some e) :
    (handle_notes ⟨some (r :: rest), some u, st⟩ uid text true).state.store =
    st ++ [saveDoc (mergeForSave e r (notesOf text)) (some uid)] := by
  cases rest with
  | nil => simp [handle_notes, he, save_telegram_receipt, notesOf]
  | cons r2 tl =>
    cases h2 : r2.expense_data <;>
      simp [handle_notes, he, save_telegram_receipt, notesOf,
        ask_category_for_current_receipt, h2]

/-- On a well-formed head and an accepting store, handle_notes pops exactly
the head: the queue becomes the tail, or is deleted when the tail is empty. -/
theorem handle_notes_spec_queue (r : Receipt) (rest : List Receipt)
    (u : UserState) (st : List (List (String × PyVal))) (e : ExpenseData)
    (uid text : String) (he : r.expense_data = some e) :
    (handle_notes ⟨some (r :: rest), some u, st⟩ uid text true).state.queue =
    (match rest with | [] => none | _ :: _ => some rest) := by
  cases rest with
  | nil => simp [handle_notes, he, save_telegram_receipt, notesOf]
  | cons r2 tl =>
    cases h2 : r2.expense_data <;>
      simp [handle_notes, he, save_telegram_receipt, notesOf,
        ask_category_for_current_receipt, h2]

/-- The user_states entry survives a successful finalize (possibly reset to
its cleaned-up form). -/
theorem handle_notes_spec_ustate_isSome (r : Receipt) (rest : List Receipt)
    (u : UserState) (st : List (List (String × PyVal))) (e : ExpenseData)
    (uid text : String) (he : r.expense_data = some e) :
    ((handle_notes ⟨some (r :: rest), some u, st⟩ uid text true).state.ustate).isSome = true := by
  cases rest with
  | nil => simp [handle_notes, he, save_telegram_receipt, notesOf]
  | cons r2 tl =>
    cases h2 : r2.expense_data <;>
      simp [handle_notes, he, save_telegram_receipt, notesOf,
        ask_category_for_current_receipt, h2]

/-- When more receipts remain and the new head is well-formed, a successful
finalize immediately presents the next receipt: the category prompt is sent,
the stored dialogue stage moves to category, and the handler hands the
conversation back in the category state. -/
theorem handle_notes_spec_advance (r r2 : Receipt) (tl : List Receipt)
    (u : UserState) (st : List (List (String × PyVal))) (e e2 : ExpenseData)
    (uid text : String) (he : r.expense_data = some e)
    (he2 : r2.expense_data = some e2) :
    (handle_notes ⟨some (r :: r2 :: tl), some u, st⟩ uid text true).replies =
      [.receiptComplete, .askCategoryPrompt] ∧
    ((handle_notes ⟨some (r :: r2 :: tl), some u, st⟩ uid text true).state.ustate.bind
      UserState.state) = some .category ∧
    (handle_notes ⟨some (r :: r2 :: tl), some u, st⟩ uid text true).result =
      .waiting .category := by
  refine ⟨?_, ?_, ?_⟩ <;>
    simp [handle_notes, he, he2, save_telegram_receipt, notesOf,
      ask_category_for_current_receipt]

/-- When the finalized receipt was the last one, the queue entry is deleted
and the user entry is reset to a dict holding only the last_project key. -/
theorem handle_notes_spec_drained (r : Receipt) (u : UserState)
    (st : List (List (String × PyVal))) (e : ExpenseData) (uid text : String)
    (he : r.expense_data = some e) :
    (handle_notes ⟨some [r], some u, st⟩ uid text true).state.queue = none ∧
    (handle_notes ⟨some [r], some u, st⟩ uid text true).state.ustate =
      some { last_project := some (u.last_project.getD none) } ∧
    (handle_notes ⟨some [r], some u, st⟩ uid text true).result = .ended := by
  refine ⟨?_, ?_, ?_⟩ <;> simp [handle_notes, he, save_telegram_receipt, notesOf]

/-- Draining a queue of n extracted receipts with n notes messages writes
exactly the documents of the queued receipts, appended to the store in
queue order: first in, first saved. -/
theorem iterateNotes_drains (uid text : String) :
    ∀ (q : List Receipt) (u : UserState) (st : List (List (String × PyVal))),
      (∀ r ∈ q, r.expense_data.isSome = true) →
      (iterateNotes uid text q.length ⟨some q, some u, st⟩).store =
        st ++ recordsOf uid text q := by
  intro q
  induction q with
  | nil =>
    intro u st _
    simp [iterateNotes, recordsOf]
  | cons r rest ih =>
    intro u st h
    have her : r.expense_data.isSome = true := h r (List.mem_cons_self r rest)
    obtain ⟨e, he⟩ := Option.isSome_iff_exists.mp her
    have step : iterateNotes uid text (r :: rest).length ⟨some (r :: rest), some u, st⟩ =
        iterateNotes uid text rest.length
          (handle_notes ⟨some (r :: rest), some u, st⟩ uid text true).state := rfl
    rw [step]
    cases rest with
    | nil =>
      have := handle_notes_spec_store r [] u st e uid text he
      simp only [List.length_nil, iterateNotes]
      rw [this]
      simp [recordsOf, he]
    | cons r2 tl =>
      have hq := handle_notes_spec_queue r (r2 :: tl) u st e uid text he
      have hst := handle_notes_spec_store r (r2 :: tl) u st e uid text he
      have hu := handle_notes_spec_ustate_isSome r (r2 :: tl) u st e uid text he
      obtain ⟨u2, hu2⟩ := Option.isSome_iff_exists.mp hu
      generalize hG : (handle_notes ⟨some (r :: r2 :: tl), some u, st⟩ uid text true).state = s'
        at hq hst hu2 ⊢
      obtain ⟨aq, au, ast⟩ := s'
      dsimp only at hq hst hu2
      subst hq hst hu2
      rw [ih u2 (st ++ [saveDoc (mergeForSave e r (notesOf text)) (some uid)])
        (fun r hr => h r (List.mem_cons_of_mem _ hr))]
      simp [recordsOf, he]

/-- A Personal answer in the category stage: the head receipt is marked
Personal and the dialogue jumps straight to the notes stage, with no
reimbursement or project prompt. -/
theorem handle_category_personal_spec (r : Receipt) (rest : List Receipt)
    (u : UserState) (st : List (List (String × PyVal))) (e : ExpenseData)
    (t : String) (he : r.expense_data = some e)
    (h : pyUpper (pyStrip t) = "P" ∨ pyUpper (pyStrip t) = "PERSONAL") :
    handle_category ⟨some (r :: rest), some u, st⟩ t =
      ⟨[.personalSavedAskNotes],
       ⟨some ({ r with category := some "Personal" } :: rest),
        some { u with state := some .notes }, st⟩,
       .waiting .notes⟩ := by
  rcases h with h | h <;> simp [handle_category, h, he]

/-- A No answer in the reimbursement stage: is_reimbursable is set to false
on the head receipt and the dialogue always continues to the project
question. -/
theorem handle_reimbursement_no_spec (r : Receipt) (rest : List Receipt)
    (u : UserState) (st : List (List (String × PyVal))) (t : String)
    (h : pyUpper (pyStrip t) = "N" ∨ pyUpper (pyStrip t) = "NO") :
    handle_reimbursement ⟨some (r :: rest), some u, st⟩ t =
      ⟨[.askProject u.last_project],
       ⟨some ({ r with is_reimbursable := some false } :: rest),
        some { u with state := some .project }, st⟩,
       .waiting .project⟩ := by
  rcases h with h | h <;> simp [handle_reimbursement, h]

/-- The literal 1 in the project stage recalls the remembered project value
without changing the memory. -/
theorem handle_project_recall_spec (r : Receipt) (rest : List Receipt)
    (u : UserState) (st : List (List (String × PyVal))) (e : ExpenseData)
    (p : Option String) (t : String) (he : r.expense_data = some e)
    (hlp : u.last_project = some p) (ht : pyStrip t = "1") :
    handle_project ⟨some (r :: rest), some u, st⟩ t =
      ⟨[.businessSavedAskNotes],
       ⟨some ({ r with project := p } :: rest),
        some { u with state := some .notes }, st⟩,
       .waiting .notes⟩ := by
  simp [handle_project, he, hlp, ht]

/-- Any project text other than 1 and skip becomes the project of the head
receipt and the new remembered project. -/
theorem handle_project_new_spec (r : Receipt) (rest : List Receipt)
    (u : UserState) (st : List (List (String × PyVal))) (e : ExpenseData)
    (t : String) (he : r.expense_data = some e)
    (ht1 : pyStrip t ≠ "1") (ht2 : pyLower (pyStrip t) ≠ "skip") :
    handle_project ⟨some (r :: rest), some u, st⟩ t =
      ⟨[.businessSavedAskNotes],
       ⟨some ({ r with project := some (pyStrip t) } :: rest),
        some { u with last_project := some (some (pyStrip t)), state := some .notes }, st⟩,
       .waiting .notes⟩ := by
  simp [handle_project, he, ht1, ht2]

/-- C1: the spec requires finalize to run the duplicate detector on
(merchant, amount, date, user) and never write a second record for a tuple
already stored.  The handler never calls check_duplicate_receipt: running
the identical receipt through the dialogue twice stores two records with
the same tuple, the second finalize replies with an ordinary completion
message rather than a duplicate notice, and the stored merchant keeps its
original casing, so even the (dead) checker, which upper-cases its query,
would not have matched the first record. -/
theorem second_finalize_writes_second_record :
    s4.store.length = 1 ∧
    s8.store.length = 2 ∧
    (s8.store.all (fun d =>
      (d.lookup "merchant" == some (.vStr "Cafe X")) &&
      (d.lookup "amount" == some (.vNum 250)) &&
      (d.lookup "date" == some (.vStr "2024-03-01")) &&
      (d.lookup "telegram_user_id" == some (.vStr "42")))) = true ∧
    (handle_notes s7 "42" "skip" true).replies = [.allDone 1] ∧
    check_duplicate_receipt s4.store "Cafe X" 250 "2024-03-01" "42" = false := by
  decide

/-- C2: counterexample — on a Business expense the answer N does not set the
project to Company Paid and does not skip the project stage: the handler
leaves the project unset, stores is_reimbursable = false, and moves the
dialogue to the project stage with a project prompt. -/
theorem business_no_answer_not_company_paid :
    b4.result = .waiting .project ∧
    (b4.state.ustate.bind UserState.state) = some .project ∧
    b4.replies = [.askProject none] ∧
    ((b4.state.queue.getD []).head?.map Receipt.project) = some none ∧
    ((b4.state.queue.getD []).head?.map Receipt.project) ≠ some (some "Company Paid") ∧
    ((b4.state.queue.getD []).head?.map Receipt.is_reimbursable) = some (some false) := by
  decide

/-- C2 amended: for a Business candidate the answer N (or No, any casing)
stores is_reimbursable = false on the head receipt and the dialogue always
continues to the AwaitingProject stage with a project prompt; no Company
Paid project label is assigned and the project stage is not skipped. -/
theorem business_no_goes_to_project (r : Receipt) (rest : List Receipt)
    (u : UserState) (st : List (List (String × PyVal))) (t : String)
    (h : pyUpper (pyStrip t) = "N" ∨ pyUpper (pyStrip t) = "NO") :
    handle_reimbursement ⟨some (r :: rest), some u, st⟩ t =
      ⟨[.askProject u.last_project],
       ⟨some ({ r with is_reimbursable := some false } :: rest),
        some { u with state := some .project }, st⟩,
       .waiting .project⟩ :=
  handle_reimbursement_no_spec r rest u st t h

/-- Witness for the amended C2 at a concrete input. -/
theorem business_no_goes_to_project_witness :
    pyUpper (pyStrip " no ") = "NO" ∧
    handle_reimbursement ⟨some [rP], some uReimb, []⟩ " no " =
      ⟨[.askProject none],
       ⟨some [{ rP with is_reimbursable := some false }],
        some { uReimb with state := some .project }, []⟩,
       .waiting .project⟩ :=
  ⟨by decide, business_no_goes_to_project rP [] uReimb [] " no " (Or.inr (by decide))⟩

/-- C3: counterexample — the record stored for a Personal expense does not
carry the sentinel values Not Applicable and Personal: after the P answer
and a skipped note, the single stored document has no is_reimbursable value
and no project_name value at all. -/
theorem personal_record_has_no_sentinel_fields :
    s4.store.length = 1 ∧
    (s4.store.head?.map (fun d => d.lookup "is_reimbursable")) = some none ∧
    (s4.store.head?.map (fun d => d.lookup "project_name")) = some none := by
  decide

/-- C3 amended: a Personal answer (P or Personal, any casing) jumps straight
from the category stage to the notes stage, with no reimbursement or
project prompt, and whatever text follows as notes, the document written at
finalize contains no is_reimbursable key and no project_name key. -/
theorem personal_answer_attrs_absent (r : Receipt) (rest : List Receipt)
    (u : UserState) (st : List (List (String × PyVal))) (e : ExpenseData)
    (uid t1 t2 : String) (he : r.expense_data = some e)
    (h : pyUpper (pyStrip t1) = "P" ∨ pyUpper (pyStrip t1) = "PERSONAL") :
    handle_category ⟨some (r :: rest), some u, st⟩ t1 =
      ⟨[.personalSavedAskNotes],
       ⟨some ({ r with category := some "Personal" } :: rest),
        some { u with state := some .notes }, st⟩,
       .waiting .notes⟩ ∧
    (handle_notes (handle_category ⟨some (r :: rest), some u, st⟩ t1).state
        uid t2 true).state.store =
      st ++ [saveDoc (mergeForSave e { r with category := some "Personal" }
        (notesOf t2)) (some uid)] ∧
    (saveDoc (mergeForSave e { r with category := some "Personal" } (notesOf t2))
      (some uid)).lookup "is_reimbursable" = none ∧
    (saveDoc (mergeForSave e { r with category := some "Personal" } (notesOf t2))
      (some uid)).lookup "project_name" = none := by
  have hcat := handle_category_personal_spec r rest u st e t1 he h
  refine ⟨hcat, ?_, ?_, ?_⟩
  · rw [hcat]
    exact handle_notes_spec_store _ rest _ st e uid t2 he
  · rw [saveDoc_lookup_is_reimbursable]
    simp [mergeForSave]
  · rw [saveDoc_lookup_project_name]
    simp [mergeForSave]

/-- Witness for the amended C3 at a concrete input. -/
theorem personal_answer_attrs_absent_witness :
    handle_category ⟨some [rP], some uCat, []⟩ "p" =
      ⟨[.personalSavedAskNotes],
       ⟨some [{ rP with category := some "Personal" }],
        some { uCat with state := some .notes }, []⟩,
       .waiting .notes⟩ ∧
    (handle_notes (handle_category ⟨some [rP], some uCat, []⟩ "p").state
        "42" "hello" true).state.store =
      [] ++ [saveDoc (mergeForSave cafeExpense { rP with category := some "Personal" }
        (notesOf "hello")) (some "42")] ∧
    (saveDoc (mergeForSave cafeExpense { rP with category := some "Personal" }
      (notesOf "hello")) (some "42")).lookup "is_reimbursable" = none ∧
    (saveDoc (mergeForSave cafeExpense { rP with category := some "Personal" }
      (notesOf "hello")) (some "42")).lookup "project_name" = none :=
  personal_answer_attrs_absent rP [] uCat [] cafeExpense "42" "p" "hello" rfl
    (Or.inl (by decide))

/-- C4: counterexample — when the store rejects the write, the failure is
reported but the head item is NOT popped: the queue still holds one item
and nothing was stored. -/
theorem failed_save_keeps_head_in_queue :
    (handle_notes s3 "42" "skip" false).replies = [.failedToSave] ∧
    ((handle_notes s3 "42" "skip" false).state.queue.map List.length) = some 1 ∧
    (handle_notes s3 "42" "skip" false).state.store = [] ∧
    (handle_notes s3 "42" "skip" false).result = .ended := by
  decide

/-- C4 amended: a rejected write is reported as a failure to save, the
conversation returns END, and the head item is retained at the head of the
queue (with the notes it just collected merged in), not popped. -/
theorem failed_save_reports_and_retains (r : Receipt) (rest : List Receipt)
    (us : Option UserState) (st : List (List (String × PyVal)))
    (e : ExpenseData) (uid t : String) (he : r.expense_data = some e) :
    handle_notes ⟨some (r :: rest), us, st⟩ uid t false =
      ⟨[.failedToSave],
       ⟨some ({ r with notes := notesOf t,
                       expense_data := some (mergeForSave e r (notesOf t)) } :: rest), us, st⟩,
       .ended⟩ := by
  simp [handle_notes, he, save_telegram_receipt, notesOf]

/-- Witness for the amended C4 at a concrete input. -/
theorem failed_save_reports_and_retains_witness :
    handle_notes ⟨some [rP], some uNotes, []⟩ "42" "skip" false =
      ⟨[.failedToSave],
       ⟨some [{ rP with notes := notesOf "skip",
                        expense_data := some (mergeForSave cafeExpense rP (notesOf "skip")) }],
        some uNotes, []⟩,
       .ended⟩ :=
  failed_save_reports_and_retains rP [] (some uNotes) [] cafeExpense "42" "skip" rfl

/-- C5: counterexample — a new photo arriving while the queue is non-empty
and the dialogue is mid-classification is rejected with a prompt to finish
first: the state (queue included) is unchanged and nothing is appended. -/
theorem photo_mid_classification_rejected :
    (s2.queue.map List.length) = some 1 ∧
    (s2.ustate.map UserState.processing) = some true ∧
    handle_photo s2 "temp/b.jpg" "b" = ⟨[.finishCurrentFirst], s2, .waiting .category⟩ := by
  decide

/-- C5 amended: while the processing flag of the user is set (which is the
case for the whole classification dialogue), handle_photo turns the photo
away with a finish-first reply, leaves the whole state unchanged, and
returns the current dialogue state. -/
theorem photo_while_processing_rejected (s : BotState) (u : UserState)
    (fp fid : String) (hu : s.ustate = some u) (hp : u.processing = true) :
    handle_photo s fp fid =
      ⟨[.finishCurrentFirst], s,
       (match u.state with | some stg => ConvResult.waiting stg | none => .ended)⟩ := by
  simp [handle_photo, hu, hp]

/-- Witness for the amended C5 at a concrete (reachable) input. -/
theorem photo_while_processing_rejected_witness :
    s2.ustate = some { state := some .category, processing := true } ∧
    handle_photo s2 "temp/c.jpg" "c" = ⟨[.finishCurrentFirst], s2, .waiting .category⟩ :=
  ⟨by decide,
   photo_while_processing_rejected s2 { state := some .category, processing := true }
     "temp/c.jpg" "c" (by decide) rfl⟩

/-- C6: with no queue entry (or an empty one), every classification handler
fails closed: it replies that nothing is pending, returns END, writes
nothing, and leaves the whole state unchanged, so any repetition behaves
identically. -/
theorem no_pending_fails_closed (s : BotState) (uid text : String) (ok : Bool)
    (h : s.queue = none ∨ s.queue = some []) :
    handle_notes s uid text ok = ⟨[.noPending], s, .ended⟩ ∧
    handle_category s text = ⟨[.noPending], s, .ended⟩ ∧
    handle_reimbursement s text = ⟨[.noPending], s, .ended⟩ ∧
    handle_project s text = ⟨[.noPending], s, .ended⟩ := by
  obtain ⟨q, us, st⟩ := s
  rcases h with h | h <;> (dsimp only at h; subst h) <;> exact ⟨rfl, rfl, rfl, rfl⟩

/-- Witness for C6: a notes message re-sent after the queue has drained. -/
theorem no_pending_fails_closed_witness :
    s4.queue = none ∧
    handle_notes s4 "42" "done" true = ⟨[.noPending], s4, .ended⟩ ∧
    handle_category s4 "done" = ⟨[.noPending], s4, .ended⟩ ∧
    handle_reimbursement s4 "done" = ⟨[.noPending], s4, .ended⟩ ∧
    handle_project s4 "done" = ⟨[.noPending], s4, .ended⟩ := by
  have h := no_pending_fails_closed s4 "42" "done" true (Or.inl (by decide))
  exact ⟨by decide, h.1, h.2.1, h.2.2.1, h.2.2.2⟩

/-- C7: queue discipline — photos are appended at the tail whenever they are
accepted at all, draining a queue of n extracted receipts appends exactly
their documents to the store in queue order (first in, first saved), and
when receipts remain after a finalize the next head is presented at once:
the category prompt is sent and the dialogue re-enters the category stage
without any new user trigger. -/
theorem fifo_queue_discipline :
    (∀ (s : BotState) (fp fid : String),
      (s.ustate.map UserState.processing).getD false = false →
      (handle_photo s fp fid).state.queue =
        some (s.queue.getD [] ++ [{ file_path := fp, file_id := fid }])) ∧
    (∀ (q : List Receipt) (u : UserState) (st : List (List (String × PyVal)))
       (uid text : String),
      (∀ r ∈ q, r.expense_data.isSome = true) →
      (iterateNotes uid text q.length ⟨some q, some u, st⟩).store =
        st ++ recordsOf uid text q) ∧
    (∀ (r r2 : Receipt) (tl : List Receipt) (u : UserState)
       (st : List (List (String × PyVal))) (e e2 : ExpenseData) (uid text : String),
      r.expense_data = some e → r2.expense_data = some e2 →
      (handle_notes ⟨some (r :: r2 :: tl), some u, st⟩ uid text true).state.queue =
        some (r2 :: tl) ∧
      (handle_notes ⟨some (r :: r2 :: tl), some u, st⟩ uid text true).replies =
        [.receiptComplete, .askCategoryPrompt] ∧
      (handle_notes ⟨some (r :: r2 :: tl), some u, st⟩ uid text true).result =
        .waiting .category) := by
  refine ⟨?_, ?_, ?_⟩
  · intro s fp fid h
    simp [handle_photo, h]
  · exact fun q u st uid text h => iterateNotes_drains uid text q u st h
  · intro r r2 tl u st e e2 uid text he he2
    have ha := handle_notes_spec_advance r r2 tl u st e e2 uid text he he2
    have hq := handle_notes_spec_queue r (r2 :: tl) u st e uid text he
    exact ⟨hq, ha.1, ha.2.2⟩

/-- Witness for C7 at concrete inputs: an append on a fresh user, a full
ordered drain of three receipts, and the auto-advance after the first of
three finalizes. -/
theorem fifo_queue_discipline_witness :
    (handle_photo s0 "temp/a.jpg" "a").state.queue =
      some (s0.queue.getD [] ++ [{ file_path := "temp/a.jpg", file_id := "a" }]) ∧
    (iterateNotes "42" "skip" q3.length ⟨some q3, some {}, []⟩).store =
      [] ++ recordsOf "42" "skip" q3 ∧
    (handle_notes ⟨some q3, some {}, []⟩ "42" "skip" true).state.queue =
      some [{ rP with file_id := "2" }, { rP with file_id := "3" }] := by
  have h := fifo_queue_discipline
  refine ⟨h.1 s0 "temp/a.jpg" "a" (by decide), h.2.1 q3 {} [] "42" "skip" (by decide), ?_⟩
  exact (h.2.2 { rP with file_id := "1" } { rP with file_id := "2" }
    [{ rP with file_id := "3" }] {} [] cafeExpense cafeExpense "42" "skip" rfl rfl).1

/-- C8: counterexample — the notes answer done does not set notes to null:
the finalized record stores the literal text done as its notes value. -/
theorem done_is_stored_as_notes_text :
    (handle_notes s3 "42" "done" true).state.store.length = 1 ∧
    ((handle_notes s3 "42" "done" true).state.store.head?.map
      (fun d => d.lookup "notes")) = some (some (.vStr "done")) := by
  decide

/-- C8 amended: in the notes stage only the word skip (any casing, after
stripping) clears the notes — the stored document then has no notes key —
while any other text, done included, becomes the stored notes value; in
every case finalize runs and the merged document is appended to the store. -/
theorem notes_skip_null_else_text (r : Receipt) (rest : List Receipt)
    (u : UserState) (st : List (List (String × PyVal))) (e : ExpenseData)
    (uid t : String) (he : r.expense_data = some e) :
    (pyLower (pyStrip t) = "skip" →
      notesOf t = none ∧
      (saveDoc (mergeForSave e r (notesOf t)) (some uid)).lookup "notes" = none) ∧
    (pyLower (pyStrip t) ≠ "skip" → notesOf t = some (pyStrip t)) ∧
    (handle_notes ⟨some (r :: rest), some u, st⟩ uid t true).state.store =
      st ++ [saveDoc (mergeForSave e r (notesOf t)) (some uid)] := by
  refine ⟨?_, ?_, handle_notes_spec_store r rest u st e uid t he⟩
  · intro h
    have hn : notesOf t = none := by simp [notesOf, h]
    refine ⟨hn, ?_⟩
    rw [saveDoc_lookup_notes]
    simp [mergeForSave, hn]
  · intro h
    simp [notesOf, h]

/-- Witness for the amended C8 at two concrete inputs: a mixed-casing skip
and the word done. -/
theorem notes_skip_null_else_text_witness :
    (pyLower (pyStrip "Skip") = "skip" ∧
      (notesOf "Skip" = none ∧
       (saveDoc (mergeForSave cafeExpense rP (notesOf "Skip")) (some "42")).lookup
         "notes" = none)) ∧
    (pyLower (pyStrip "done") ≠ "skip" ∧ notesOf "done" = some (pyStrip "done")) ∧
    (handle_notes ⟨some [rP], some uNotes, []⟩ "42" "done" true).state.store =
      [] ++ [saveDoc (mergeForSave cafeExpense rP (notesOf "done")) (some "42")] := by
  have h1 := notes_skip_null_else_text rP [] uNotes [] cafeExpense "42" "Skip" rfl
  have h2 := notes_skip_null_else_text rP [] uNotes [] cafeExpense "42" "done" rfl
  exact ⟨⟨by decide, h1.1 (by decide)⟩, ⟨by decide, h2.2.1 (by decide)⟩, h2.2.2⟩

/-- C9: the project-stage shortcut and memory — the literal 1 resolves the
project to the remembered last_project value without changing the memory;
any other non-skip text becomes both the project of the head receipt and
the new remembered project; and the remembered project is the only per-user
state kept when the queue drains and when /cancel runs. -/
theorem project_shortcut_and_memory :
    (∀ (r : Receipt) (rest : List Receipt) (u : UserState)
       (st : List (List (String × PyVal))) (e : ExpenseData) (p : Option String)
       (t : String), r.expense_data = some e → u.last_project = some p →
      pyStrip t = "1" →
      handle_project ⟨some (r :: rest), some u, st⟩ t =
        ⟨[.businessSavedAskNotes],
         ⟨some ({ r with project := p } :: rest),
          some { u with state := some .notes }, st⟩,
         .waiting .notes⟩) ∧
    (∀ (r : Receipt) (rest : List Receipt) (u : UserState)
       (st : List (List (String × PyVal))) (e : ExpenseData) (t : String),
      r.expense_data = some e → pyStrip t ≠ "1" → pyLower (pyStrip t) ≠ "skip" →
      handle_project ⟨some (r :: rest), some u, st⟩ t =
        ⟨[.businessSavedAskNotes],
         ⟨some ({ r with project := some (pyStrip t) } :: rest),
          some { u with last_project := some (some (pyStrip t)), state := some .notes },
          st⟩,
         .waiting .notes⟩) ∧
    (∀ (r : Receipt) (u : UserState) (st : List (List (String × PyVal)))
       (e : ExpenseData) (uid t : String), r.expense_data = some e →
      (handle_notes ⟨some [r], some u, st⟩ uid t true).state.ustate =
        some { last_project := some (u.last_project.getD none) }) ∧
    (∀ s : BotState,
      (cancel s).state.queue = none ∧
      (cancel s).state.ustate =
        s.ustate.map (fun u => ({ last_project := some (u.last_project.getD none) } : UserState))) := by
  refine ⟨?_, ?_, ?_, ?_⟩
  · exact fun r rest u st e p t he hlp ht =>
      handle_project_recall_spec r rest u st e p t he hlp ht
  · exact fun r rest u st e t he ht1 ht2 =>
      handle_project_new_spec r rest u st e t he ht1 ht2
  · exact fun r u st e uid t he => (handle_notes_spec_drained r u st e uid t he).2.1
  · intro s
    exact ⟨rfl, rfl⟩

/-- Witness for C9 at concrete inputs: recalling Acme with 1, remembering a
new project Beta, the cleanup after a drain, and a /cancel. -/
theorem project_shortcut_and_memory_witness :
    handle_project ⟨some [rP], some uProj, []⟩ "1" =
      ⟨[.businessSavedAskNotes],
       ⟨some [{ rP with project := some "Acme" }],
        some { uProj with state := some .notes }, []⟩,
       .waiting .notes⟩ ∧
    handle_project ⟨some [rP], some uProj, []⟩ "Beta" =
      ⟨[.businessSavedAskNotes],
       ⟨some [{ rP with project := some "Beta" }],
        some { uProj with last_project := some (some "Beta"), state := some .notes },
        []⟩,
       .waiting .notes⟩ ∧
    (handle_notes ⟨some [rP], some uProj, []⟩ "42" "done" true).state.ustate =
      some { last_project := some (uProj.last_project.getD none) } ∧
    (cancel s2).state.queue = none ∧
    (cancel s2).state.ustate =
      s2.ustate.map (fun u => ({ last_project := some (u.last_project.getD none) } : UserState)) := by
  have h := project_shortcut_and_memory
  refine ⟨?_, ?_, h.2.2.1 rP uProj [] cafeExpense "42" "done" rfl,
    (h.2.2.2 s2).1, (h.2.2.2 s2).2⟩
  · have := h.1 rP [] uProj [] cafeExpense (some "Acme") "1" rfl rfl (by decide)
    simpa using this
  · have := h.2.1 rP [] uProj [] cafeExpense "Beta" rfl (by decide) (by decide)
    simpa using this

/-- C10: the None-filtering of the save path — a key whose computed value is
None is dropped from the stored document entirely: a non-Business record
has no is_reimbursable and no project_name key, a record whose notes were
skipped has no notes key, and likewise for every other optional field. -/
theorem saved_doc_omits_none_valued_fields (e : ExpenseData) (uid : Option String) :
    (e.category.getD "Personal" ≠ "Business" →
      (saveDoc e uid).lookup "is_reimbursable" = none ∧
      (saveDoc e uid).lookup "project_name" = none) ∧
    (e.notes = none → (saveDoc e uid).lookup "notes" = none) ∧
    (e.project_name = none → (saveDoc e uid).lookup "project_name" = none) ∧
    (e.date = none → (saveDoc e uid).lookup "date" = none) ∧
    (e.tax_amount = none → (saveDoc e uid).lookup "tax_amount" = none) ∧
    (e.payment_method = none → (saveDoc e uid).lookup "payment_method" = none) ∧
    (uid = none → (saveDoc e uid).lookup "telegram_user_id" = none) ∧
    (e.file_path = none → (saveDoc e uid).lookup "file_path" = none) := by
  refine ⟨?_, ?_, ?_, ?_, ?_, ?_, ?_, ?_⟩
  · intro h
    constructor
    · rw [saveDoc_lookup_is_reimbursable]
      simp [h]
    · rw [saveDoc_lookup_project_name]
      simp [h]
  · intro h
    rw [saveDoc_lookup_notes]
    simp [h]
  · intro h
    rw [saveDoc_lookup_project_name]
    by_cases hc : e.category.getD "Personal" = "Business" <;> simp [hc, h]
  · intro h
    rw [saveDoc_lookup, raw_lookup_date]
    simp [h]
  · intro h
    rw [saveDoc_lookup, raw_lookup_tax_amount]
    simp [h]
  · intro h
    rw [saveDoc_lookup, raw_lookup_payment_method]
    simp [h]
  · intro h
    rw [saveDoc_lookup, raw_lookup_telegram_user_id]
    simp [h]
  · intro h
    rw [saveDoc_lookup, raw_lookup_file_path]
    simp [h]

/-- Witness for C10 at a concrete input: an expense with only a merchant
name, saved with no user id. -/
theorem saved_doc_omits_none_valued_fields_witness :
    ((saveDoc { merchant_name := some "Cafe X" } none).lookup "is_reimbursable" = none ∧
     (saveDoc { merchant_name := some "Cafe X" } none).lookup "project_name" = none) ∧
    (saveDoc { merchant_name := some "Cafe X" } none).lookup "notes" = none ∧
    (saveDoc { merchant_name := some "Cafe X" } none).lookup "date" = none ∧
    (saveDoc { merchant_name := some "Cafe X" } none).lookup "tax_amount" = none ∧
    (saveDoc { merchant_name := some "Cafe X" } none).lookup "payment_method" = none ∧
    (saveDoc { merchant_name := some "Cafe X" } none).lookup "telegram_user_id" = none ∧
    (saveDoc { merchant_name := some "Cafe X" } none).lookup "file_path" = none := by
  have h := saved_doc_omits_none_valued_fields { merchant_name := some "Cafe X" } none
  exact ⟨h.1 (by decide), h.2.1 rfl, h.2.2.2.1 rfl, h.2.2.2.2.1 rfl,
    h.2.2.2.2.2.1 rfl, h.2.2.2.2.2.2.1 rfl, h.2.2.2.2.2.2.2 rfl⟩
